import Mathlib

/-!
# Verification of the story-backend agent service

A shallow embedding, in Lean 4, of the pure decision logic of the
story-backend repository: the confidence-threshold routing of the assistant
(`agents/assistant_agent.py`), the sentiment/emotion fallbacks
(`utils/agent_utils.py`), the Gemini client wrappers
(`utils/gemini_client.py`), the journal and therapy agents
(`agents/journal_agent.py`, `agents/therapy_agent.py`), the simulated Agentverse search of the guide agent (`agents/guide_agent.py`), the Firebase
singleton (`firebase/firebase_client.py`) and the assistant HTTP route
(`routers/assistant_routes.py`).

External effects (the Gemini HTTP call, the HuggingFace tensor pipeline,
LangChain, Firestore, message parsing/sending) are represented by explicit
oracle arguments of type `Except`/`Option`: `.ok`/`some` is the value the
external call produced, `.error`/`none` is the exception it raised.
Python dicts keyed by strings are modelled as association lists with
unique keys; Python `None`/empty-string falsiness is modelled explicitly.
Timestamps (wall-clock reads) are omitted from the record models.
-/

set_option autoImplicit false
set_option linter.unusedVariables false

namespace StoryBackend

universe u

/-! ## Association-list model of Python `dict` -/

/-- Python `d[k]` lookup (first matching key; Python dicts have unique keys). -/
def alookup {β : Type u} : List (String × β) → String → Option β
  | [], _ => none
  | (k', v) :: rest, k => if k' = k then some v else alookup rest k

/-- Python `d[k] = v` assignment: replace the binding if present, else append. -/
def ainsert {β : Type u} : List (String × β) → String → β → List (String × β)
  | [], k, v => [(k, v)]
  | (k', v') :: rest, k, v =>
      if k' = k then (k, v) :: rest else (k', v') :: ainsert rest k v

/-- Python `del d[k]`: drop every binding of `k` (a Python dict has at most one). -/
def aerase {β : Type u} : List (String × β) → String → List (String × β)
  | [], _ => []
  | (k', v) :: rest, k =>
      if k' = k then aerase rest k else (k', v) :: aerase rest k

theorem alookup_ainsert_self {β : Type u} (d : List (String × β)) (k : String) (v : β) :
    alookup (ainsert d k v) k = some v := by
  induction d with
  | nil => simp [ainsert, alookup]
  | cons p rest ih =>
      by_cases h : p.1 = k <;> simp [ainsert, alookup, h, ih]

theorem alookup_ainsert_ne {β : Type u} (d : List (String × β)) (k u : String) (v : β)
    (h : u ≠ k) : alookup (ainsert d k v) u = alookup d u := by
  have hku : k ≠ u := fun hh => h hh.symm
  induction d with
  | nil => simp [ainsert, alookup, hku]
  | cons p rest ih =>
      by_cases h1 : p.1 = k
      · simp [ainsert, alookup, h1, hku]
      · by_cases h2 : p.1 = u <;> simp [ainsert, alookup, h, h1, h2, ih]

theorem alookup_aerase_self {β : Type u} (d : List (String × β)) (k : String) :
    alookup (aerase d k) k = none := by
  induction d with
  | nil => simp [aerase, alookup]
  | cons p rest ih =>
      by_cases h : p.1 = k <;> simp [aerase, alookup, h, ih]

theorem alookup_aerase_ne {β : Type u} (d : List (String × β)) (k u : String)
    (h : u ≠ k) : alookup (aerase d k) u = alookup d u := by
  have hku : k ≠ u := fun hh => h hh.symm
  induction d with
  | nil => simp [aerase, alookup]
  | cons p rest ih =>
      by_cases h1 : p.1 = k
      · simp [aerase, alookup, h1, hku, ih]
      · by_cases h2 : p.1 = u <;> simp [aerase, alookup, h, h1, h2, ih]

/-! ## JSON values (results of `json.loads` on the model output) -/

/-- A parsed JSON value, as handed around by `generate_structured_response`. -/
inductive JVal where
  | str (s : String)
  | num (q : ℚ)
  | bool (b : Bool)
  | null
  | arr (elems : List JVal)
  | obj (fields : List (String × JVal))

/-- Python `v[k]` on a JSON value: `none` models the exception Python raises
(`KeyError` for a missing key, `TypeError` for subscripting a non-dict). -/
def JVal.get (v : JVal) (k : String) : Option JVal :=
  match v with
  | .obj fields => alookup fields k
  | _ => none

/-- Python `==` between a JSON value and a string literal. -/
def JVal.eqStr (v : JVal) (s : String) : Bool :=
  match v with
  | .str t => t = s
  | _ => false

/-- Numeric coercion used by Python comparisons such as `confidence >= 70`:
JSON numbers compare as themselves, `bool` is an `int` subtype
(`False = 0`, `True = 1`), and any other operand raises `TypeError`
(modelled as `none`). -/
def JVal.asNum (v : JVal) : Option ℚ :=
  match v with
  | .num q => some q
  | .bool b => some (if b then 1 else 0)
  | _ => none

/-- Python `not x` truthiness for an optional string: `None` and the empty
string are falsy (used on the module-level agent address globals). -/
def isFalsy (a : Option String) : Bool :=
  match a with
  | none => true
  | some s => s.isEmpty

/-- Python `str.lower()` (adequate for the ASCII keywords the code
compares against): lowercase every character. -/
def pyLower (s : String) : String := String.mk (s.data.map Char.toLower)

/-! ## `utils/gemini_client.py` — `GeminiClient` -/

namespace GeminiClient

/-- Model of `GeminiClient.generate_text`: returns the model text, or — when the
underlying `generate_content` call raises — catches, logs and returns the
string `"Error generating text: {e}"`.  It never raises. -/
def generate_text (contentResp : Except String String) : String :=
  match contentResp with
  | .ok text => text
  | .error e => "Error generating text: " ++ e

/-- Model of `GeminiClient.generate_structured_response`: on a successful
`generate_content` call the (markdown-stripped) text is JSON-parsed;
a parse failure falls back to `{"raw_response": text}`.  When the
underlying call raises, the catch-all returns `{"error": str(e)}`.
It never raises.  `parsed` is the outcome of `json.loads` on the
cleaned-up response text (`none` = `JSONDecodeError`). -/
def generate_structured_response (contentResp : Except String String)
    (parsed : Option JVal) : JVal :=
  match contentResp with
  | .error e => .obj [("error", .str e)]
  | .ok text =>
      match parsed with
      | some v => v
      | none => .obj [("raw_response", .str text)]

end GeminiClient

/-! ## `utils/agent_utils.py` — sentiment and emotion analysis -/

namespace AgentUtils

/-- Model of `SentimentAnalysis` (`models/data_models.py`), also the shape of the
dict returned by `analyze_sentiment`. -/
structure SentimentAnalysis where
  score : ℚ
  label : String
  deriving DecidableEq

/-- Model of `EmotionAnalysis` (`models/data_models.py`), also the shape of the
dict returned by `analyze_emotions`; the `emotions` dict is kept in
insertion order. -/
structure EmotionAnalysis where
  emotions : List (String × ℚ)
  dominant_emotion : String
  deriving DecidableEq

def sentimentLabels : List String := ["negative", "neutral", "positive"]

def emotionLabels : List String :=
  ["anger", "disgust", "fear", "joy", "neutral", "sadness", "surprise"]

/-- Python `scores.index(max(scores))`: first index attaining the maximum;
`none` models the `ValueError` `max` raises on an empty list. -/
def idxOfMax (l : List ℚ) : Option Nat :=
  match l.max? with
  | none => none
  | some m => some (l.indexOf m)

/-- Python `max(emotions, key=emotions.get)`: the first key whose value is
maximal (`max` keeps the earliest element among ties); `none` models the
`ValueError` on an empty dict. -/
def argmaxKey (l : List (String × ℚ)) : Option String :=
  match l with
  | [] => none
  | p :: rest =>
      some (rest.foldl (fun best q => if q.2 > best.2 then q else best) p).1

/-- Model of `analyze_sentiment`: the tokenizer/model/softmax pipeline is the
oracle `scoresResp` (the `tolist()[0]` row).  Any exception inside the
`try` — the upstream call raising, `max` on an empty row, or the label
lookup going out of range — is caught and replaced by the hard-coded
fallback `{"score": 0.5, "label": "neutral"}`. -/
def analyze_sentiment (text : String) (scoresResp : Except Unit (List ℚ)) :
    SentimentAnalysis :=
  match scoresResp with
  | .error _ => ⟨1/2, "neutral"⟩
  | .ok scores =>
      match idxOfMax scores with
      | none => ⟨1/2, "neutral"⟩
      | some i =>
          match scores.get? i, sentimentLabels.get? i with
          | some sc, some lb => ⟨sc, lb⟩
          | _, _ => ⟨1/2, "neutral"⟩

/-- Model of `analyze_emotions`: zips the seven labels with the score row; any
exception is caught and replaced by the hard-coded fallback
`{"emotions": {"neutral": 1.0}, "dominant_emotion": "neutral"}`. -/
def analyze_emotions (text : String) (scoresResp : Except Unit (List ℚ)) :
    EmotionAnalysis :=
  match scoresResp with
  | .error _ => ⟨[("neutral", 1)], "neutral"⟩
  | .ok scores =>
      let emotions := emotionLabels.zip scores
      match argmaxKey emotions with
      | none => ⟨[("neutral", 1)], "neutral"⟩
      | some k => ⟨emotions, k⟩

/-- Model of `create_agent_identity`: wraps `Identity.from_seed`; on failure it
logs and **re-raises** (`raise`), propagating the error to the caller. -/
def create_agent_identity (fromSeedResp : Except String String) :
    Except String String :=
  match fromSeedResp with
  | .ok identity => .ok identity
  | .error e => .error e

end AgentUtils

/-! ## `agents/assistant_agent.py` — `AssistantAgent` -/

namespace AssistantAgent

/-- The module-level `*_AGENT_ADDRESS` globals, fixed after the agent is
constructed with its `agent_addresses` dict. -/
structure Addresses where
  journal : Option String
  exercise : Option String
  gratitude : Option String
  therapy : Option String
  guide : Option String

/-- Model of `self.ongoing_conversations`: user id → current conversation stage. -/
abbrev ConvMap := List (String × String)

/-- The dicts `process_query` and the `route_to_*` helpers return. -/
inductive PQRes where
  | err (msg : String)
  | okMsg (msg : String)
  | therapyClosing (closing_message session_summary : String)
  | guideRec (recommended_feature explanation next_steps personalized_message : String)
  | failure (msg : String)

/-- Model of `AssistantAgent.understand_user_query`: delegates to
`generate_structured_response` and returns whatever dict that yields.
The `except` branch of the method itself (the hard-coded
`{"recommended_agent": "guide", "confidence": 30, ...}` default, see
`understand_default`) is unreachable: `generate_structured_response`
catches every exception itself. -/
def understand_user_query (contentResp : Except String String)
    (parsed : Option JVal) (query : String) (context : Option String) : JVal :=
  GeminiClient.generate_structured_response contentResp parsed

/-- The hard-coded default analysis in the `except` branch of
`understand_user_query` (`assistant_agent.py:128-133`). -/
def understand_default : JVal :=
  .obj [("recommended_agent", .str "guide"),
        ("confidence", .num 30),
        ("explanation", .str "Query analysis failed. Defaulting to guide agent."),
        ("secondary_agents", .arr [])]

def route_to_journal_agent (cfg : Addresses) (user_id query : String) : PQRes :=
  if isFalsy cfg.journal then .err "Journal agent address not configured"
  else
    .okMsg "Your journal entry has been analyzed. I\x27ve identified themes of self-reflection and personal growth, with a generally positive sentiment. Check the insights section for more details."

/-- Model of `route_to_exercise_agent`: the key-theme Gemini call inside cannot
raise (`generate_text` catches everything and the inner `json.loads`
has its own fallback `except`), so when the address is configured the
canned success message is always returned. -/
def route_to_exercise_agent (cfg : Addresses) (user_id query : String) : PQRes :=
  if isFalsy cfg.exercise then .err "Exercise agent address not configured"
  else
    .okMsg "I\x27ve generated some personalized exercises for you based on your needs. Check the exercises section to find morning reflection and CBT exercises tailored to your situation."

def route_to_gratitude_agent (cfg : Addresses) (user_id query : String) : PQRes :=
  if isFalsy cfg.gratitude then .err "Gratitude agent address not configured"
  else
    .okMsg "I\x27ve created a personalized gratitude exercise for you. It includes prompts to help you recognize positive aspects in your life and specific techniques for enhancing feelings of gratitude."

/-- Model of `route_to_therapy_agent`: the only routing helper that mutates
`ongoing_conversations` — `start_session` stores `user_id → "therapy"`,
`end_session` deletes the user id, any other action leaves it alone.
Returns the updated map alongside the canned response for the action. -/
def route_to_therapy_agent (cfg : Addresses) (st : ConvMap)
    (user_id query action : String) : PQRes × ConvMap :=
  if isFalsy cfg.therapy then (.err "Therapy agent address not configured", st)
  else
    let st1 :=
      if action = "start_session" then ainsert st user_id "therapy"
      else if action = "end_session" then aerase st user_id
      else st
    if action = "start_session" then
      (.okMsg "I\x27m here to listen and support you. How are you feeling today?", st1)
    else if action = "continue_session" then
      (.okMsg "Thank you for sharing that. It sounds like you\x27re experiencing some challenges with anxiety. Let\x27s explore what might be triggering these feelings and consider some coping strategies that could help.", st1)
    else
      (.therapyClosing
        "Thank you for sharing today. I hope our conversation was helpful."
        "We discussed anxiety triggers and explored several CBT techniques for managing anxious thoughts.", st1)

def route_to_guide_agent (cfg : Addresses) (user_id query : String)
    (context : Option String) : PQRes :=
  if isFalsy cfg.guide then .err "Guide agent address not configured"
  else
    .guideRec "Journaling"
      "Based on your question, journaling would help you process these thoughts and emotions."
      "Try writing about your feelings in the journal section to gain clarity."
      "It sounds like you\x27re going through a lot right now. I recommend starting with journaling to help organize your thoughts and identify patterns in your emotions."

def exitWords : List String := ["exit", "end", "quit", "goodbye", "bye"]

/-- Python `query.lower() in ["exit", "end", "quit", "goodbye", "bye"]`. -/
def isExit (query : String) : Bool := exitWords.contains (pyLower query)

/-- The analyse-and-dispatch tail of `process_query`
(`assistant_agent.py:299-318`), the code that runs when the user has no
ongoing therapy conversation.  `analysis["recommended_agent"]` /
`analysis["confidence"]` raising (`KeyError`/`TypeError`, modelled by the
`none` branches) is caught by the catch-all of `process_query`, which returns
the `success: False` trouble message.  With confidence ≥ 70 the
recognised agent is dispatched; anything else falls through to the guide
agent. -/
def dispatch_on_analysis (cfg : Addresses) (st : ConvMap)
    (contentResp : Except String String) (parsed : Option JVal)
    (user_id query : String) (context : Option String) : PQRes × ConvMap :=
    let analysis := understand_user_query contentResp parsed query context
    match analysis.get "recommended_agent" with
    | none =>
        (.failure "I\x27m having trouble understanding your request right now. Could you try phrasing it differently?", st)
    | some agent_type =>
        match analysis.get "confidence" with
        | none =>
            (.failure "I\x27m having trouble understanding your request right now. Could you try phrasing it differently?", st)
        | some cv =>
            match cv.asNum with
            | none =>
                (.failure "I\x27m having trouble understanding your request right now. Could you try phrasing it differently?", st)
            | some confidence =>
                if 70 ≤ confidence then
                  if agent_type.eqStr "journal" then
                    (route_to_journal_agent cfg user_id query, st)
                  else if agent_type.eqStr "exercise" then
                    (route_to_exercise_agent cfg user_id query, st)
                  else if agent_type.eqStr "gratitude" then
                    (route_to_gratitude_agent cfg user_id query, st)
                  else if agent_type.eqStr "therapy" then
                    route_to_therapy_agent cfg st user_id query "start_session"
                  else if agent_type.eqStr "guide" then
                    (route_to_guide_agent cfg user_id query context, st)
                  else
                    (route_to_guide_agent cfg user_id query context, st)
                else
                  (route_to_guide_agent cfg user_id query context, st)

/-- Model of `AssistantAgent.process_query`.  If the user has an ongoing `"therapy"`
conversation the analysis is bypassed and the query goes straight to the
therapy agent (`end_session` on an exit word, `continue_session`
otherwise); every other request goes through `dispatch_on_analysis`. -/
def process_query (cfg : Addresses) (st : ConvMap)
    (contentResp : Except String String) (parsed : Option JVal)
    (user_id query : String) (context : Option String) : PQRes × ConvMap :=
  match alookup st user_id with
  | some conversation_type =>
      if conversation_type = "therapy" then
        if isExit query then route_to_therapy_agent cfg st user_id query "end_session"
        else route_to_therapy_agent cfg st user_id query "continue_session"
      else dispatch_on_analysis cfg st contentResp parsed user_id query context
  | none => dispatch_on_analysis cfg st contentResp parsed user_id query context

/-- Invariant of `ongoing_conversations`: every stored stage is
`"therapy"` (the only value the code ever writes). -/
def StagesWF (st : ConvMap) : Prop :=
  ∀ u s, alookup st u = some s → s = "therapy"

end AssistantAgent

/-! ## Webhook envelopes (shared by the agent `handle_webhook` methods) -/

/-- The dict a `handle_webhook` method returns: `{"status": "success"}` or
`{"status": "error", "message": msg}`. -/
inductive WebhookRes where
  | success
  | error (msg : String)

/-! ## `agents/journal_agent.py` — `JournalAgent` -/

namespace JournalAgent

/-- Model of `JournalEntry` (`models/data_models.py`); the wall-clock timestamp
field is omitted from the model. -/
structure JournalEntry where
  content : String
  user_id : String

/-- Model of `JournalInsight` (`models/data_models.py`). -/
structure JournalInsight where
  summary : String
  key_themes : List String
  cognitive_distortions : List String
  growth_indicators : List String
  reflection_questions : List String
  actionable_advice : List String

/-- Model of `JournalAnalysis` (`models/data_models.py`). -/
structure JournalAnalysis where
  journal_entry : JournalEntry
  sentiment_analysis : AgentUtils.SentimentAnalysis
  emotion_analysis : AgentUtils.EmotionAnalysis
  insights : JournalInsight

/-- Model of `JournalAgent.analyze_journal`: sentiment and emotion analysis (which
never raise — they have their own fallbacks), then the insight object.
`insightsResult` is the outcome of building `JournalInsight` from the
structured LLM response: `generate_structured_response` itself never
raises, but the pydantic construction from its dict (list/str fields of
the wrong shape) can, and that exception — or any other raised in the
body — reaches the `except` of this method, which logs and **re-raises**
(`journal_agent.py:143-145`) instead of substituting a fallback.
The Firestore write (`saveResp`) catches internally and only affects
logging. -/
def analyze_journal (journal_text user_id : String)
    (sentScores emoScores : Except Unit (List ℚ))
    (insightsResult : Except String JournalInsight)
    (saveResp : Option String) : Except String JournalAnalysis :=
  let sentiment_analysis := AgentUtils.analyze_sentiment journal_text sentScores
  let emotion_analysis := AgentUtils.analyze_emotions journal_text emoScores
  match insightsResult with
  | .error e => .error e
  | .ok insights =>
      .ok { journal_entry := ⟨journal_text, user_id⟩
            sentiment_analysis := sentiment_analysis
            emotion_analysis := emotion_analysis
            insights := insights }

/-- The webhook payload fields this agent reads (`none` = key absent). -/
structure Payload where
  journal_text : Option String
  user_id : Option String

/-- Model of `JournalAgent.handle_webhook`: parse the message, check the required
fields, analyse, reply.  Every exception (parse failure, the re-raise
out of `analyze_journal`, a send failure) is caught by the outer
`except`, which returns an error-status dict; the method never raises. -/
def handle_webhook (parseResp : Except String Payload)
    (sentScores emoScores : Except Unit (List ℚ))
    (insightsResult : Except String JournalInsight)
    (saveResp : Option String)
    (sendResp : Except String Unit) : WebhookRes :=
  match parseResp with
  | .error e => .error e
  | .ok payload =>
      match payload.journal_text, payload.user_id with
      | some journal_text, some user_id =>
          match analyze_journal journal_text user_id sentScores emoScores
              insightsResult saveResp with
          | .error e => .error e
          | .ok _ =>
              match sendResp with
              | .error e => .error e
              | .ok _ => .success
      | _, _ => .error "Missing required fields"

end JournalAgent

/-! ## `agents/therapy_agent.py` — `TherapyAgent` -/

namespace TherapyAgent

/-- Model of `TherapyMessage` (`models/data_models.py`); timestamp omitted. -/
structure TherapyMessage where
  content : String
  is_user : Bool

/-- Model of `self.active_sessions`: user id → the `"messages"` list of the session
(the LangChain `"conversation"` object is reached only through the
`predict` oracle and carries no further modelled state). -/
abbrev Sessions := List (String × List TherapyMessage)

/-- Model of `TherapyAgent.initialize_chat_session`: builds the LangChain chain
(`initResp` is that construction — it can raise), seeds the session with
the two opening messages and returns the greeting.  On failure the
`except` returns the canned trouble message and no session is stored. -/
def initialize_chat_session (st : Sessions) (user_id : String)
    (initResp : Except Unit Unit) : String × Sessions :=
  match initResp with
  | .error _ =>
      ("I\x27m having trouble connecting right now. Please try again in a moment.", st)
  | .ok _ =>
      ("I\x27m here to listen and support you. How are you feeling today?",
       ainsert st user_id
         [⟨"I\x27d like to start a therapy session.", true⟩,
          ⟨"I\x27m here to listen and support you. How are you feeling today?", false⟩])

/-- Model of `TherapyAgent.continue_chat_session`: with no active session it
delegates to `initialize_chat_session`.  Otherwise the user message is
appended first; if `conversation.predict` then raises, the `except`
returns the canned fallback (the appended user message survives),
otherwise the reply is appended too and returned. -/
def continue_chat_session (st : Sessions) (user_id message : String)
    (initResp : Except Unit Unit) (predictResp : Except Unit String) :
    String × Sessions :=
  match alookup st user_id with
  | none => initialize_chat_session st user_id initResp
  | some messages =>
      let st1 := ainsert st user_id (messages ++ [⟨message, true⟩])
      match predictResp with
      | .error _ =>
          ("I\x27m having trouble processing that right now. Could you try expressing that differently?", st1)
      | .ok response =>
          (response,
           ainsert st user_id (messages ++ [⟨message, true⟩, ⟨response, false⟩]))

/-- What `end_chat_session` returns: a bare string when there is no
active session, else the closing dict. -/
inductive EndRes where
  | noSession (s : String)
  | closing (closing_message session_summary : String)

/-- Model of `TherapyAgent.end_chat_session`: with no active session it returns
the bare string `"No active session to end."` and changes nothing.
Otherwise it builds the transcript, asks Gemini for a summary
(`generate_text` never raises — on failure it returns its
`"Error generating text: ..."` string, which becomes the summary),
saves to Firestore (which catches internally), deletes the session and
returns the closing dict.  Its own `except` branch is unreachable in
this model. -/
def end_chat_session (st : Sessions) (user_id : String)
    (summaryResp : Except String String) (saveResp : Option String) :
    EndRes × Sessions :=
  match alookup st user_id with
  | none => (.noSession "No active session to end.", st)
  | some _ =>
      let session_summary := GeminiClient.generate_text summaryResp
      (.closing
        "Thank you for sharing today. I hope our conversation was helpful. Take care of yourself, and remember to practice some of the techniques we discussed."
        session_summary,
       aerase st user_id)

/-- The webhook payload fields this agent reads (`none` = key absent). -/
structure Payload where
  user_id : Option String
  action : Option String
  message : Option String

/-- Model of `TherapyAgent.handle_webhook`.  Requires `user_id` and `action`;
dispatches on the action string (a `continue_session` without a
`message` falls into the invalid-action branch, which still replies and
reports success).  On `end_session` with no active session,
`end_chat_session` returns a bare string and the subsequent
`response["closing_message"]` subscription raises `TypeError`, which the
outer `except` converts to an error status.  The method never raises. -/
def handle_webhook (st : Sessions) (parseResp : Except String Payload)
    (initResp : Except Unit Unit) (predictResp : Except Unit String)
    (summaryResp : Except String String) (saveResp : Option String)
    (sendResp : Except String Unit) : WebhookRes × Sessions :=
  match parseResp with
  | .error e => (.error e, st)
  | .ok payload =>
      match payload.user_id, payload.action with
      | some user_id, some action =>
          if action = "start_session" then
            let r := initialize_chat_session st user_id initResp
            match sendResp with
            | .error e => (.error e, r.2)
            | .ok _ => (.success, r.2)
          else if action = "continue_session" && payload.message.isSome then
            match payload.message with
            | some message =>
                let r := continue_chat_session st user_id message initResp predictResp
                match sendResp with
                | .error e => (.error e, r.2)
                | .ok _ => (.success, r.2)
            | none => (.success, st)
          else if action = "end_session" then
            let r := end_chat_session st user_id summaryResp saveResp
            match r.1 with
            | .noSession _ =>
                -- `response["closing_message"]` on a `str` raises TypeError,
                -- caught by the outer except
                (.error "string indices must be integers", r.2)
            | .closing _ _ =>
                match sendResp with
                | .error e => (.error e, r.2)
                | .ok _ => (.success, r.2)
          else
            -- invalid action: a success-False payload is still sent and
            -- the handler reports webhook success
            match sendResp with
            | .error e => (.error e, st)
            | .ok _ => (.success, st)
      | _, _ => (.error "Missing required fields", st)

end TherapyAgent

/-! ## `agents/guide_agent.py` — `GuideAgent` -/

namespace GuideAgent

/-- A simulated Agentverse search record. -/
structure AVAgent where
  agent_name : String
  agent_description : String
  relevance_score : ℚ
  deriving DecidableEq

/-- Python substring test `needle in hay`. -/
def strContains (hay needle : String) : Bool :=
  decide (needle.data <:+: hay.data)

/-- One insertion step of a stable descending sort by `relevance_score`:
an element stays behind strictly greater ones and goes in front of the
first element that is not strictly greater. -/
def insertDesc (a : AVAgent) : List AVAgent → List AVAgent
  | [] => [a]
  | b :: bs =>
      if a.relevance_score < b.relevance_score then b :: insertDesc a bs
      else a :: b :: bs

/-- Python `sorted(external_agents, key=lambda x: x["relevance_score"], reverse=True)`:
a stable descending sort. -/
def sortDesc : List AVAgent → List AVAgent
  | [] => []
  | a :: rest => insertDesc a (sortDesc rest)

/-- Model of `GuideAgent.search_agentverse`: a hard-coded simulated response.
Three records whose scores depend only on keyword membership in the
lowercased query, sorted by descending relevance, truncated to two. -/
def search_agentverse (query : String) : List AVAgent :=
  let q := pyLower query
  let external_agents : List AVAgent :=
    [⟨"Meditation Guide Agent",
      "Guides users through personalized meditation exercises",
      if strContains q "meditation" || strContains q "stress" then 85/100 else 4/10⟩,
     ⟨"Sleep Improvement Agent",
      "Provides recommendations for better sleep",
      if strContains q "sleep" || strContains q "insomnia" then 9/10 else 3/10⟩,
     ⟨"Exercise Motivation Agent",
      "Helps users stay motivated with physical exercise routines",
      if strContains q "exercise" || strContains q "motivation" then 8/10 else 2/10⟩]
  let sorted_agents := sortDesc external_agents
  sorted_agents.take 2

end GuideAgent

/-! ## `firebase/firebase_client.py` — `FirebaseClient` -/

namespace FirebaseClient

/-- The object built by a successful initialization (the Firestore
client handle is abstract here; we carry a tag for identity). -/
structure Instance where
  db : String
  deriving DecidableEq

/-- Model of `FirebaseClient.__new__`: `_instance` is the class-level slot.
When it is already populated, the existing instance is returned and the
initialization (the `initResp` oracle) is not consulted.  When it is
empty, a fresh instance is initialized; if initialization raises, the
slot is reset and `None` is returned.  Result: (returned value, new
`_instance` slot). -/
def construct (instanceSlot : Option Instance)
    (initResp : Except String String) :
    Option Instance × Option Instance :=
  match instanceSlot with
  | some inst => (some inst, some inst)
  | none =>
      match initResp with
      | .ok db => (some ⟨db⟩, some ⟨db⟩)
      | .error _ => (none, none)

end FirebaseClient

/-! ## `routers/assistant_routes.py` — the `/api/assistant/query` endpoint -/

namespace AssistantRoutes

/-- Model of `AgentResponse` (`models/data_models.py`): the response envelope.
`data` is `Any` in the source; here it carries the routing result, with
`none` standing for the empty dict `{}` used on the error path. -/
structure AgentResponse where
  success : Bool
  data : Option AssistantAgent.PQRes
  message : String

/-- The `/query` route body: `agent.process_query(...)` is attempted;
its outcome (value or raised exception) is `outcome`.  On success the
envelope wraps the result, on an exception the `except` returns a
`success=False` envelope with the error text — the exception is never
propagated to the framework. -/
def process_query (outcome : Except String AssistantAgent.PQRes) : AgentResponse :=
  match outcome with
  | .ok response => ⟨true, some response, "Query processed successfully"⟩
  | .error e => ⟨false, none, "Error processing query: " ++ e⟩

end AssistantRoutes

/-! ## Shared helper facts -/

/-- A fully configured address table (all five agent addresses set), used
to instantiate theorems at concrete inputs. -/
def sampleAddresses : AssistantAgent.Addresses :=
  ⟨some "agent1q-journal", some "agent1q-exercise", some "agent1q-gratitude",
   some "agent1q-therapy", some "agent1q-guide"⟩

theorem eqStr_iff (v : JVal) (s : String) :
    v.eqStr s = true ↔ v = JVal.str s := by
  cases v <;> simp [JVal.eqStr]

theorem StagesWF_ainsert {st : AssistantAgent.ConvMap} (k : String)
    (hwf : AssistantAgent.StagesWF st) :
    AssistantAgent.StagesWF (ainsert st k "therapy") := by
  intro u s h
  by_cases hu : u = k
  · subst hu
    rw [alookup_ainsert_self] at h
    exact (Option.some_injective _ h).symm
  · rw [alookup_ainsert_ne st k u _ hu] at h
    exact hwf u s h

theorem StagesWF_aerase {st : AssistantAgent.ConvMap} (k : String)
    (hwf : AssistantAgent.StagesWF st) :
    AssistantAgent.StagesWF (aerase st k) := by
  intro u s h
  by_cases hu : u = k
  · subst hu
    rw [alookup_aerase_self] at h
    cases h
  · rw [alookup_aerase_ne st k u hu] at h
    exact hwf u s h

theorem route_therapy_state_cases (cfg : AssistantAgent.Addresses)
    (st : AssistantAgent.ConvMap) (u q action : String) :
    (AssistantAgent.route_to_therapy_agent cfg st u q action).2 = st ∨
    (AssistantAgent.route_to_therapy_agent cfg st u q action).2 = ainsert st u "therapy" ∨
    (AssistantAgent.route_to_therapy_agent cfg st u q action).2 = aerase st u := by
  rw [AssistantAgent.route_to_therapy_agent]
  by_cases hf : isFalsy cfg.therapy
  · simp [hf]
  · simp only [hf]
    split_ifs <;> simp

theorem dispatch_state_cases (cfg : AssistantAgent.Addresses)
    (st : AssistantAgent.ConvMap) (contentResp : Except String String)
    (parsed : Option JVal) (u q : String) (ctx : Option String) :
    (AssistantAgent.dispatch_on_analysis cfg st contentResp parsed u q ctx).2 = st ∨
    (AssistantAgent.dispatch_on_analysis cfg st contentResp parsed u q ctx).2 =
      ainsert st u "therapy" ∨
    (AssistantAgent.dispatch_on_analysis cfg st contentResp parsed u q ctx).2 =
      aerase st u := by
  simp only [AssistantAgent.dispatch_on_analysis]
  split
  · exact Or.inl rfl
  · split
    · exact Or.inl rfl
    · split
      · exact Or.inl rfl
      · split
        · split_ifs <;>
            first
            | exact Or.inl rfl
            | exact route_therapy_state_cases cfg st u q "start_session"
        · exact Or.inl rfl

/-! ## Claim theorems -/

/-- Claim C3: for every input text, when the underlying model call raises,
`analyze_sentiment` returns exactly `{"score": 0.5, "label": "neutral"}`
and `analyze_emotions` returns exactly
`{"emotions": {"neutral": 1.0}, "dominant_emotion": "neutral"}`. -/
theorem sentiment_emotion_fallbacks_verbatim (text : String) :
    AgentUtils.analyze_sentiment text (.error ()) =
      { score := 1/2, label := "neutral" } ∧
    AgentUtils.analyze_emotions text (.error ()) =
      { emotions := [("neutral", 1)], dominant_emotion := "neutral" } :=
  ⟨rfl, rfl⟩

/-- Claim C10: `FirebaseClient` is a singleton.  Once the class slot is
populated the constructor returns that same instance, whatever the
initialization oracle would do (it is not consulted); in particular any
construction after a successful first one yields the identical instance.
If the first initialization raises, the constructor returns `None` and
the slot is reset. -/
theorem firebase_singleton :
    (∀ (i : FirebaseClient.Instance) (r : Except String String),
        FirebaseClient.construct (some i) r = (some i, some i)) ∧
    (∀ db : String,
        FirebaseClient.construct none (.ok db) = (some ⟨db⟩, some ⟨db⟩)) ∧
    (∀ (db : String) (r : Except String String),
        FirebaseClient.construct (FirebaseClient.construct none (.ok db)).2 r =
          (some ⟨db⟩, some ⟨db⟩)) ∧
    (∀ e : String, FirebaseClient.construct none (.error e) = (none, none)) :=
  ⟨fun _ _ => rfl, fun _ => rfl, fun _ _ => rfl, fun _ => rfl⟩

/-- Claim C6: the assistant `/query` endpoint always returns the
`AgentResponse` envelope: `success=True` with the routing result when
`process_query` returns, `success=False` with an error message (and no
propagated exception) when it raises. -/
theorem assistant_query_envelope :
    (∀ r : AssistantAgent.PQRes,
        AssistantRoutes.process_query (.ok r) =
          { success := true, data := some r, message := "Query processed successfully" }) ∧
    (∀ e : String,
        AssistantRoutes.process_query (.error e) =
          { success := false, data := none, message := "Error processing query: " ++ e }) :=
  ⟨fun _ => rfl, fun _ => rfl⟩

/-- Claim C2 as stated is false: not every wrapped operation substitutes a
fallback — `JournalAgent.analyze_journal` re-raises
(`journal_agent.py:143-145`).  Witnessed at the concrete input
`journal_text="t"`, `user_id="u"` with the insight construction raising
`"boom"`: the method propagates `.error "boom"` instead of returning a
value. -/
theorem wrapped_calls_fallback_counterexample :
    ¬ (∀ (journal_text user_id : String)
         (sentScores emoScores : Except Unit (List ℚ))
         (insightsResult : Except String JournalAgent.JournalInsight)
         (saveResp : Option String),
         ∃ v, JournalAgent.analyze_journal journal_text user_id sentScores
                emoScores insightsResult saveResp = .ok v) := by
  intro h
  obtain ⟨v, hv⟩ := h "t" "u" (.error ()) (.error ()) (.error "boom") none
  exact Except.noConfusion hv

/-- Claim C2 amended: every operation wrapping an external call catches
all exceptions and logs, and the wrappers substitute hard-coded fallback
values — except `JournalAgent.analyze_journal` (and likewise
`ExerciseAgent.generate_exercises` and `create_agent_identity`), whose
handlers log and re-raise to the caller; the webhook handler catches the
re-raised error and converts it to an error envelope. -/
theorem wrapped_calls_fallback_amended :
    (∀ (journal_text user_id : String)
       (sentScores emoScores : Except Unit (List ℚ))
       (err : String) (saveResp : Option String),
        JournalAgent.analyze_journal journal_text user_id sentScores emoScores
          (.error err) saveResp = .error err) ∧
    (∀ e : String, AgentUtils.create_agent_identity (.error e) = .error e) ∧
    (∀ t : String, AgentUtils.analyze_sentiment t (.error ()) =
        { score := 1/2, label := "neutral" }) ∧
    (∀ t : String, AgentUtils.analyze_emotions t (.error ()) =
        { emotions := [("neutral", 1)], dominant_emotion := "neutral" }) ∧
    (∀ e : String, GeminiClient.generate_text (.error e) =
        "Error generating text: " ++ e) ∧
    (∀ (e : String) (parsed : Option JVal),
        GeminiClient.generate_structured_response (.error e) parsed =
          .obj [("error", .str e)]) ∧
    (∀ (journal_text user_id : String)
       (sentScores emoScores : Except Unit (List ℚ))
       (err : String) (saveResp : Option String) (sendResp : Except String Unit),
        JournalAgent.handle_webhook (.ok ⟨some journal_text, some user_id⟩)
          sentScores emoScores (.error err) saveResp sendResp = .error err) :=
  ⟨fun _ _ _ _ _ _ => rfl, fun _ => rfl, fun _ => rfl, fun _ => rfl,
   fun _ => rfl, fun _ _ => rfl, fun _ _ _ _ _ _ _ => rfl⟩

/-- Claim C4 (behaviour at the failing input): when the LLM call raises
`"boom"`, `generate_structured_response` catches it first and returns
`{"error": "boom"}`, so `understand_user_query` passes that dict through
instead of its hard-coded guide/30 default; `process_query` then raises
`KeyError` on `analysis["recommended_agent"]` and its catch-all returns
the `success=False` trouble message — the request is **not** routed to
the guide agent. -/
theorem assistant_llm_failure_goes_to_trouble_message :
    AssistantAgent.understand_user_query (.error "boom") none "hello" none =
      .obj [("error", .str "boom")] ∧
    AssistantAgent.understand_default.get "confidence" = some (.num 30) ∧
    AssistantAgent.process_query sampleAddresses [] (.error "boom") none
      "u1" "hello" none =
      (.failure "I\x27m having trouble understanding your request right now. Could you try phrasing it differently?", []) :=
  ⟨rfl, rfl, rfl⟩

/-- Claim C1: for a user with no ongoing conversation whose analysed query
reports agent `a` with numeric confidence `c`, `process_query` dispatches
to the recommended specialized agent only when `c ≥ 70` — for each of the
five recognised agents the matching route is taken when `c ≥ 70` — and
for every result with `c < 70` the request is routed to the guide agent
instead. -/
theorem assistant_confidence_threshold_routing
    (cfg : AssistantAgent.Addresses) (st : AssistantAgent.ConvMap)
    (contentResp : Except String String) (parsed : Option JVal)
    (user_id query : String) (context : Option String)
    (a : String) (cv : JVal) (c : ℚ)
    (hno : alookup st user_id = none)
    (hra : (AssistantAgent.understand_user_query contentResp parsed query context).get
        "recommended_agent" = some (.str a))
    (hcv : (AssistantAgent.understand_user_query contentResp parsed query context).get
        "confidence" = some cv)
    (hc : cv.asNum = some c) :
    (c < 70 →
      AssistantAgent.process_query cfg st contentResp parsed user_id query context =
        (AssistantAgent.route_to_guide_agent cfg user_id query context, st)) ∧
    (70 ≤ c → a = "journal" →
      AssistantAgent.process_query cfg st contentResp parsed user_id query context =
        (AssistantAgent.route_to_journal_agent cfg user_id query, st)) ∧
    (70 ≤ c → a = "exercise" →
      AssistantAgent.process_query cfg st contentResp parsed user_id query context =
        (AssistantAgent.route_to_exercise_agent cfg user_id query, st)) ∧
    (70 ≤ c → a = "gratitude" →
      AssistantAgent.process_query cfg st contentResp parsed user_id query context =
        (AssistantAgent.route_to_gratitude_agent cfg user_id query, st)) ∧
    (70 ≤ c → a = "therapy" →
      AssistantAgent.process_query cfg st contentResp parsed user_id query context =
        AssistantAgent.route_to_therapy_agent cfg st user_id query "start_session") ∧
    (70 ≤ c → a = "guide" →
      AssistantAgent.process_query cfg st contentResp parsed user_id query context =
        (AssistantAgent.route_to_guide_agent cfg user_id query context, st)) := by
  have hmain : AssistantAgent.process_query cfg st contentResp parsed user_id query context =
      (if 70 ≤ c then
        if JVal.eqStr (.str a) "journal" then
          (AssistantAgent.route_to_journal_agent cfg user_id query, st)
        else if JVal.eqStr (.str a) "exercise" then
          (AssistantAgent.route_to_exercise_agent cfg user_id query, st)
        else if JVal.eqStr (.str a) "gratitude" then
          (AssistantAgent.route_to_gratitude_agent cfg user_id query, st)
        else if JVal.eqStr (.str a) "therapy" then
          AssistantAgent.route_to_therapy_agent cfg st user_id query "start_session"
        else if JVal.eqStr (.str a) "guide" then
          (AssistantAgent.route_to_guide_agent cfg user_id query context, st)
        else (AssistantAgent.route_to_guide_agent cfg user_id query context, st)
      else (AssistantAgent.route_to_guide_agent cfg user_id query context, st)) := by
    rw [AssistantAgent.process_query, hno]
    simp only [AssistantAgent.dispatch_on_analysis, hra, hcv, hc]
  refine ⟨?_, ?_, ?_, ?_, ?_, ?_⟩
  · intro hlt
    rw [hmain, if_neg (not_le.mpr hlt)]
  · intro hge ha
    subst ha
    rw [hmain, if_pos hge]
    simp [JVal.eqStr]
  · intro hge ha
    subst ha
    rw [hmain, if_pos hge]
    simp [JVal.eqStr]
  · intro hge ha
    subst ha
    rw [hmain, if_pos hge]
    simp [JVal.eqStr]
  · intro hge ha
    subst ha
    rw [hmain, if_pos hge]
    simp [JVal.eqStr]
  · intro hge ha
    subst ha
    rw [hmain, if_pos hge]
    simp [JVal.eqStr]

/-- Claim C1 witness: with a fully configured assistant, empty
conversation map, and an analysis recommending `journal` at confidence
80, the query is dispatched to the journal route. -/
theorem assistant_confidence_threshold_routing_witness :
    AssistantAgent.process_query sampleAddresses []
      (.ok "resp")
      (some (.obj [("recommended_agent", .str "journal"), ("confidence", .num 80)]))
      "u1" "please analyze my journal" none =
      (AssistantAgent.route_to_journal_agent sampleAddresses "u1"
        "please analyze my journal", []) :=
  (assistant_confidence_threshold_routing sampleAddresses [] (.ok "resp")
      (some (.obj [("recommended_agent", .str "journal"), ("confidence", .num 80)]))
      "u1" "please analyze my journal" none "journal" (.num 80) 80
      rfl rfl rfl rfl).2.1 (by norm_num) rfl

/-- Claim C5: the in-memory conversation-stage mapping.  With the therapy
address configured and every stored stage `"therapy"` (the only value the
code writes — preserved below): a present user id bypasses query
analysis and is routed to the therapy agent — with action `end_session`,
which removes the user id, when the lowercased query is an exit word,
and with `continue_session`, leaving the map unchanged, otherwise; an
absent user id becomes present (with stage `"therapy"`) exactly when the
analysis starts a therapy session (recommended agent `"therapy"` at
confidence ≥ 70); and the stage invariant is preserved. -/
theorem assistant_conversation_map_lifecycle
    (cfg : AssistantAgent.Addresses) (st : AssistantAgent.ConvMap)
    (contentResp : Except String String) (parsed : Option JVal)
    (user_id query : String) (context : Option String)
    (hwf : AssistantAgent.StagesWF st)
    (haddr : isFalsy cfg.therapy = false) :
    (alookup st user_id = some "therapy" → AssistantAgent.isExit query = true →
      AssistantAgent.process_query cfg st contentResp parsed user_id query context =
        AssistantAgent.route_to_therapy_agent cfg st user_id query "end_session" ∧
      (AssistantAgent.process_query cfg st contentResp parsed user_id query context).2 =
        aerase st user_id ∧
      alookup (AssistantAgent.process_query cfg st contentResp parsed user_id
        query context).2 user_id = none) ∧
    (alookup st user_id = some "therapy" → AssistantAgent.isExit query = false →
      AssistantAgent.process_query cfg st contentResp parsed user_id query context =
        AssistantAgent.route_to_therapy_agent cfg st user_id query "continue_session" ∧
      (AssistantAgent.process_query cfg st contentResp parsed user_id query context).2 =
        st) ∧
    (alookup st user_id = none →
      (AssistantAgent.understand_user_query contentResp parsed query context).get
          "recommended_agent" = some (.str "therapy") →
      ∀ (cv : JVal) (c : ℚ),
        (AssistantAgent.understand_user_query contentResp parsed query context).get
            "confidence" = some cv →
        cv.asNum = some c → 70 ≤ c →
        AssistantAgent.process_query cfg st contentResp parsed user_id query context =
          AssistantAgent.route_to_therapy_agent cfg st user_id query "start_session" ∧
        alookup (AssistantAgent.process_query cfg st contentResp parsed user_id
          query context).2 user_id = some "therapy") ∧
    (alookup st user_id = none →
      ¬ (∃ (cv : JVal) (c : ℚ),
          (AssistantAgent.understand_user_query contentResp parsed query context).get
              "recommended_agent" = some (.str "therapy") ∧
          (AssistantAgent.understand_user_query contentResp parsed query context).get
              "confidence" = some cv ∧
          cv.asNum = some c ∧ 70 ≤ c) →
      alookup (AssistantAgent.process_query cfg st contentResp parsed user_id
        query context).2 user_id = none) ∧
    AssistantAgent.StagesWF
      (AssistantAgent.process_query cfg st contentResp parsed user_id query context).2 := by
  refine ⟨?_, ?_, ?_, ?_, ?_⟩
  · intro hpresent hexit
    have h1 : AssistantAgent.process_query cfg st contentResp parsed user_id query context =
        AssistantAgent.route_to_therapy_agent cfg st user_id query "end_session" := by
      rw [AssistantAgent.process_query, hpresent]
      simp [hexit]
    have h2 : (AssistantAgent.route_to_therapy_agent cfg st user_id query
        "end_session").2 = aerase st user_id := by
      rw [AssistantAgent.route_to_therapy_agent, haddr]
      simp
    refine ⟨h1, by rw [h1, h2], ?_⟩
    rw [h1, h2]
    exact alookup_aerase_self st user_id
  · intro hpresent hnexit
    have h1 : AssistantAgent.process_query cfg st contentResp parsed user_id query context =
        AssistantAgent.route_to_therapy_agent cfg st user_id query "continue_session" := by
      rw [AssistantAgent.process_query, hpresent]
      simp [hnexit]
    have h2 : (AssistantAgent.route_to_therapy_agent cfg st user_id query
        "continue_session").2 = st := by
      rw [AssistantAgent.route_to_therapy_agent, haddr]
      simp
    exact ⟨h1, by rw [h1, h2]⟩
  · intro hno hra cv c hcv hc hge
    have h1 : AssistantAgent.process_query cfg st contentResp parsed user_id query context =
        AssistantAgent.route_to_therapy_agent cfg st user_id query "start_session" := by
      rw [AssistantAgent.process_query, hno]
      simp only [AssistantAgent.dispatch_on_analysis, hra, hcv, hc]
      rw [if_pos hge]
      simp [JVal.eqStr]
    have h2 : (AssistantAgent.route_to_therapy_agent cfg st user_id query
        "start_session").2 = ainsert st user_id "therapy" := by
      rw [AssistantAgent.route_to_therapy_agent, haddr]
      simp
    refine ⟨h1, ?_⟩
    rw [h1, h2]
    exact alookup_ainsert_self st user_id "therapy"
  · intro hno hnot
    rw [AssistantAgent.process_query, hno]
    simp only [AssistantAgent.dispatch_on_analysis]
    cases hra : (AssistantAgent.understand_user_query contentResp parsed query
        context).get "recommended_agent" with
    | none => simpa using hno
    | some agent_type =>
        cases hcv : (AssistantAgent.understand_user_query contentResp parsed query
            context).get "confidence" with
        | none => simpa using hno
        | some cv =>
            cases hn : cv.asNum with
            | none =>
                simp only [hn]
                simpa using hno
            | some c =>
                simp only [hn]
                by_cases hge : 70 ≤ c
                · rw [if_pos hge]
                  by_cases hth : agent_type = JVal.str "therapy"
                  · exact absurd ⟨cv, c, hth ▸ hra, hcv, hn, hge⟩ hnot
                  · have hth2 : agent_type.eqStr "therapy" = false := by
                      cases hb : agent_type.eqStr "therapy"
                      · rfl
                      · exact absurd ((eqStr_iff agent_type "therapy").mp hb) hth
                    split_ifs <;> simp_all
                · rw [if_neg hge]
                  simpa using hno
  · have hcases : (AssistantAgent.process_query cfg st contentResp parsed user_id
        query context).2 = st ∨
      (AssistantAgent.process_query cfg st contentResp parsed user_id query
        context).2 = ainsert st user_id "therapy" ∨
      (AssistantAgent.process_query cfg st contentResp parsed user_id query
        context).2 = aerase st user_id := by
      rw [AssistantAgent.process_query]
      cases halk : alookup st user_id with
      | some ct =>
          by_cases hct : ct = "therapy"
          · subst hct
            simp only [if_pos rfl]
            cases hex : AssistantAgent.isExit query
            · simpa [hex] using
                route_therapy_state_cases cfg st user_id query "continue_session"
            · simpa [hex] using
                route_therapy_state_cases cfg st user_id query "end_session"
          · simpa [hct] using
              dispatch_state_cases cfg st contentResp parsed user_id query context
      | none =>
          simpa using
            dispatch_state_cases cfg st contentResp parsed user_id query context
    rcases hcases with h | h | h
    · rw [h]; exact hwf
    · rw [h]; exact StagesWF_ainsert user_id hwf
    · rw [h]; exact StagesWF_aerase user_id hwf

/-- Claim C5 witness: a user with an ongoing therapy conversation who
says "exit" is routed to the therapy agent with `end_session` and
removed from the conversation map. -/
theorem assistant_conversation_map_lifecycle_witness :
    AssistantAgent.process_query sampleAddresses [("u", "therapy")] (.ok "resp")
        none "u" "exit" none =
      AssistantAgent.route_to_therapy_agent sampleAddresses [("u", "therapy")]
        "u" "exit" "end_session" ∧
    (AssistantAgent.process_query sampleAddresses [("u", "therapy")] (.ok "resp")
        none "u" "exit" none).2 = aerase [("u", "therapy")] "u" ∧
    alookup (AssistantAgent.process_query sampleAddresses [("u", "therapy")]
        (.ok "resp") none "u" "exit" none).2 "u" = none :=
  (assistant_conversation_map_lifecycle sampleAddresses [("u", "therapy")]
      (.ok "resp") none "u" "exit" none
      (by
        intro u s h
        by_cases hu : "u" = u
        · simp [alookup, hu] at h
          exact h.symm
        · simp [alookup, hu] at h)
      rfl).1 rfl (by decide)

/-- Claim C8: `search_agentverse` is a pure function of the query that
always returns exactly two records, in non-increasing order of
`relevance_score`, and the score of each record is fixed by whether the
lowercased query contains the hard-coded keywords. -/
theorem guide_search_two_records_sorted (query : String) :
    (GuideAgent.search_agentverse query).length = 2 ∧
    List.Pairwise (fun a b => b.relevance_score ≤ a.relevance_score)
      (GuideAgent.search_agentverse query) ∧
    (∀ a ∈ GuideAgent.search_agentverse query,
      (a.agent_name = "Meditation Guide Agent" →
        a.relevance_score =
          if GuideAgent.strContains (pyLower query) "meditation" ||
             GuideAgent.strContains (pyLower query) "stress" then 85/100 else 4/10) ∧
      (a.agent_name = "Sleep Improvement Agent" →
        a.relevance_score =
          if GuideAgent.strContains (pyLower query) "sleep" ||
             GuideAgent.strContains (pyLower query) "insomnia" then 9/10 else 3/10) ∧
      (a.agent_name = "Exercise Motivation Agent" →
        a.relevance_score =
          if GuideAgent.strContains (pyLower query) "exercise" ||
             GuideAgent.strContains (pyLower query) "motivation" then 8/10 else 2/10)) := by
  cases h1 : (GuideAgent.strContains (pyLower query) "meditation" ||
      GuideAgent.strContains (pyLower query) "stress") <;>
    cases h2 : (GuideAgent.strContains (pyLower query) "sleep" ||
        GuideAgent.strContains (pyLower query) "insomnia") <;>
      cases h3 : (GuideAgent.strContains (pyLower query) "exercise" ||
          GuideAgent.strContains (pyLower query) "motivation") <;>
        simp only [GuideAgent.search_agentverse, h1, h2, h3] <;>
          norm_num [GuideAgent.sortDesc, GuideAgent.insertDesc, List.pairwise_cons] <;>
            decide

/-- Claim C9: with no active session, `continue_chat_session` initializes
one (returning the greeting, and an active session exists afterwards)
while `end_chat_session` returns the bare string
`"No active session to end."` and changes nothing; ending a session for
an active user removes it from `active_sessions`. -/
theorem therapy_session_lifecycle :
    (∀ (st : TherapyAgent.Sessions) (user_id message : String)
       (predictResp : Except Unit String),
       alookup st user_id = none →
       TherapyAgent.continue_chat_session st user_id message (.ok ()) predictResp =
         ("I\x27m here to listen and support you. How are you feeling today?",
          ainsert st user_id
            [⟨"I\x27d like to start a therapy session.", true⟩,
             ⟨"I\x27m here to listen and support you. How are you feeling today?", false⟩]) ∧
       alookup (TherapyAgent.continue_chat_session st user_id message (.ok ())
           predictResp).2 user_id =
         some [⟨"I\x27d like to start a therapy session.", true⟩,
               ⟨"I\x27m here to listen and support you. How are you feeling today?", false⟩]) ∧
    (∀ (st : TherapyAgent.Sessions) (user_id : String)
       (summaryResp : Except String String) (saveResp : Option String),
       alookup st user_id = none →
       TherapyAgent.end_chat_session st user_id summaryResp saveResp =
         (.noSession "No active session to end.", st)) ∧
    (∀ (st : TherapyAgent.Sessions) (user_id : String)
       (messages : List TherapyAgent.TherapyMessage)
       (summaryResp : Except String String) (saveResp : Option String),
       alookup st user_id = some messages →
       (TherapyAgent.end_chat_session st user_id summaryResp saveResp).2 =
         aerase st user_id ∧
       alookup (TherapyAgent.end_chat_session st user_id summaryResp saveResp).2
           user_id = none) := by
  refine ⟨?_, ?_, ?_⟩
  · intro st user_id message predictResp hno
    have h1 : TherapyAgent.continue_chat_session st user_id message (.ok ())
        predictResp =
        ("I\x27m here to listen and support you. How are you feeling today?",
         ainsert st user_id
           [⟨"I\x27d like to start a therapy session.", true⟩,
            ⟨"I\x27m here to listen and support you. How are you feeling today?", false⟩]) := by
      rw [TherapyAgent.continue_chat_session, hno]
      rfl
    refine ⟨h1, ?_⟩
    rw [h1]
    exact alookup_ainsert_self st user_id _
  · intro st user_id summaryResp saveResp hno
    rw [TherapyAgent.end_chat_session, hno]
  · intro st user_id messages summaryResp saveResp hsome
    have h1 : (TherapyAgent.end_chat_session st user_id summaryResp saveResp).2 =
        aerase st user_id := by
      rw [TherapyAgent.end_chat_session, hsome]
    refine ⟨h1, ?_⟩
    rw [h1]
    exact alookup_aerase_self st user_id

/-- Claim C9 witness: with the empty session map, continuing a chat for
"u" initializes a session; ending for "u" with no session returns the
bare no-session string; ending for an active "u" removes the session. -/
theorem therapy_session_lifecycle_witness :
    TherapyAgent.continue_chat_session [] "u" "hello" (.ok ()) (.ok "reply") =
      ("I\x27m here to listen and support you. How are you feeling today?",
       ainsert [] "u"
         [⟨"I\x27d like to start a therapy session.", true⟩,
          ⟨"I\x27m here to listen and support you. How are you feeling today?", false⟩]) ∧
    TherapyAgent.end_chat_session [] "u" (.ok "summary") none =
      (.noSession "No active session to end.", []) ∧
    alookup (TherapyAgent.end_chat_session [("u", [])] "u" (.ok "summary")
        none).2 "u" = none :=
  ⟨(therapy_session_lifecycle.1 [] "u" "hello" (.ok "reply") rfl).1,
   therapy_session_lifecycle.2.1 [] "u" (.ok "summary") none rfl,
   (therapy_session_lifecycle.2.2 [("u", [])] "u" [] (.ok "summary") none rfl).2⟩

/-- Claim C7: the journal and therapy `handle_webhook` methods are total
(modelled as total functions) and return a `"status": "success"` dict
exactly when the required payload fields are present and processing
completes; a missing required field or any raised exception (parse
failure, a re-raised analysis error, a send failure, the `TypeError` on
ending a non-existent therapy session) yields a `"status": "error"` dict
with a message — never a propagated exception. -/
theorem webhook_status_envelope :
    (∀ (e : String) (s em : Except Unit (List ℚ))
       (ir : Except String JournalAgent.JournalInsight) (sv : Option String)
       (sr : Except String Unit),
       JournalAgent.handle_webhook (.error e) s em ir sv sr = .error e) ∧
    (∀ (u : Option String) (s em : Except Unit (List ℚ))
       (ir : Except String JournalAgent.JournalInsight) (sv : Option String)
       (sr : Except String Unit),
       JournalAgent.handle_webhook (.ok ⟨none, u⟩) s em ir sv sr =
         .error "Missing required fields") ∧
    (∀ (jt : String) (s em : Except Unit (List ℚ))
       (ir : Except String JournalAgent.JournalInsight) (sv : Option String)
       (sr : Except String Unit),
       JournalAgent.handle_webhook (.ok ⟨some jt, none⟩) s em ir sv sr =
         .error "Missing required fields") ∧
    (∀ (jt uid : String) (s em : Except Unit (List ℚ))
       (ins : JournalAgent.JournalInsight) (sv : Option String),
       JournalAgent.handle_webhook (.ok ⟨some jt, some uid⟩) s em (.ok ins)
         sv (.ok ()) = .success) ∧
    (∀ (jt uid : String) (s em : Except Unit (List ℚ)) (errm : String)
       (sv : Option String) (sr : Except String Unit),
       JournalAgent.handle_webhook (.ok ⟨some jt, some uid⟩) s em (.error errm)
         sv sr = .error errm) ∧
    (∀ (jt uid : String) (s em : Except Unit (List ℚ))
       (ins : JournalAgent.JournalInsight) (sv : Option String) (e : String),
       JournalAgent.handle_webhook (.ok ⟨some jt, some uid⟩) s em (.ok ins)
         sv (.error e) = .error e) ∧
    (∀ (st : TherapyAgent.Sessions) (e : String) (i : Except Unit Unit)
       (p : Except Unit String) (su : Except String String) (sv : Option String)
       (se : Except String Unit),
       TherapyAgent.handle_webhook st (.error e) i p su sv se = (.error e, st)) ∧
    (∀ (st : TherapyAgent.Sessions) (a m : Option String) (i : Except Unit Unit)
       (p : Except Unit String) (su : Except String String) (sv : Option String)
       (se : Except String Unit),
       TherapyAgent.handle_webhook st (.ok ⟨none, a, m⟩) i p su sv se =
         (.error "Missing required fields", st)) ∧
    (∀ (st : TherapyAgent.Sessions) (u : String) (m : Option String)
       (i : Except Unit Unit) (p : Except Unit String) (su : Except String String)
       (sv : Option String) (se : Except String Unit),
       TherapyAgent.handle_webhook st (.ok ⟨some u, none, m⟩) i p su sv se =
         (.error "Missing required fields", st)) ∧
    (∀ (st : TherapyAgent.Sessions) (uid : String) (m : Option String)
       (p : Except Unit String) (su : Except String String) (sv : Option String),
       TherapyAgent.handle_webhook st (.ok ⟨some uid, some "start_session", m⟩)
         (.ok ()) p su sv (.ok ()) =
         (.success, (TherapyAgent.initialize_chat_session st uid (.ok ())).2)) ∧
    (∀ (st : TherapyAgent.Sessions) (uid msg resp : String)
       (su : Except String String) (sv : Option String),
       TherapyAgent.handle_webhook st
         (.ok ⟨some uid, some "continue_session", some msg⟩)
         (.ok ()) (.ok resp) su sv (.ok ()) =
         (.success,
          (TherapyAgent.continue_chat_session st uid msg (.ok ()) (.ok resp)).2)) ∧
    (∀ (st : TherapyAgent.Sessions) (uid : String)
       (messages : List TherapyAgent.TherapyMessage) (i : Except Unit Unit)
       (p : Except Unit String) (su : Except String String) (sv : Option String),
       alookup st uid = some messages →
       TherapyAgent.handle_webhook st (.ok ⟨some uid, some "end_session", none⟩)
         i p su sv (.ok ()) = (.success, aerase st uid)) ∧
    (∀ (st : TherapyAgent.Sessions) (uid : String) (i : Except Unit Unit)
       (p : Except Unit String) (su : Except String String) (sv : Option String)
       (se : Except String Unit),
       alookup st uid = none →
       TherapyAgent.handle_webhook st (.ok ⟨some uid, some "end_session", none⟩)
         i p su sv se = (.error "string indices must be integers", st)) := by
  refine ⟨fun _ _ _ _ _ _ => rfl, ?_, fun _ _ _ _ _ _ => rfl,
    fun _ _ _ _ _ _ => rfl, fun _ _ _ _ _ _ _ => rfl, fun _ _ _ _ _ _ _ => rfl,
    fun _ _ _ _ _ _ _ => rfl, ?_, ?_,
    fun _ _ _ _ _ _ => rfl, fun _ _ _ _ _ _ => rfl, ?_, ?_⟩
  · intro u s em ir sv sr
    cases u <;> rfl
  · intro st a m i p su sv se
    cases a <;> cases m <;> rfl
  · intro st u m i p su sv se
    cases m <;> rfl
  · intro st uid messages i p su sv hsome
    simp [TherapyAgent.handle_webhook, TherapyAgent.end_chat_session, hsome]
  · intro st uid i p su sv se hno
    simp [TherapyAgent.handle_webhook, TherapyAgent.end_chat_session, hno]

/-- Claim C7 witness: ending a therapy session over the webhook succeeds
(and removes the session) when the user "u" has an active session, and
reports an error status — the caught `TypeError` — when there is none. -/
theorem webhook_status_envelope_witness :
    TherapyAgent.handle_webhook [("u", [])]
        (.ok ⟨some "u", some "end_session", none⟩)
        (.ok ()) (.ok "r") (.ok "summary") none (.ok ()) =
      (.success, aerase [("u", [])] "u") ∧
    TherapyAgent.handle_webhook []
        (.ok ⟨some "u", some "end_session", none⟩)
        (.ok ()) (.ok "r") (.ok "summary") none (.ok ()) =
      (.error "string indices must be integers", []) :=
  ⟨webhook_status_envelope.2.2.2.2.2.2.2.2.2.2.2.1
      [("u", [])] "u" [] (.ok ()) (.ok "r") (.ok "summary") none rfl,
   webhook_status_envelope.2.2.2.2.2.2.2.2.2.2.2.2
      [] "u" (.ok ()) (.ok "r") (.ok "summary") none (.ok ()) rfl⟩

end StoryBackend
